import Mathlib

/-!
Verification of the gonvme NVMe-over-TCP initiator layer.

The definitions below are a shallow embedding of `gonvme_tcp.go`
(discovery-log parsing, initiator lookup, connect/disconnect error
handling) together with models of the parts of the library whose
implementation is not among the provided sources (the session parser,
the mock implementation and a handful of named constants), which are
modelled from the specification.  Process execution and the filesystem
are represented by explicit parameters (captured stdout, exit status,
stat/cat results), matching the spec's "Process Adapter" collaborator.
-/

namespace Gonvme

/-! ## Go string primitives

Structural reimplementations of the `strings` functions the Go source
uses (`strings.Fields`, `strings.Split`, `strings.Join`), over the
character list of a `String`, so that every definition evaluates inside
the kernel. -/

/-- Whitespace test used by Go `strings.Fields` (ASCII part of `unicode.IsSpace`). -/
def goIsSpace (c : Char) : Bool :=
  c = ' ' || c = '\t' || c = '\n' || c = '\r' || c = Char.ofNat 11 || c = Char.ofNat 12

/-- Accumulator worker for `goFields`: `cur` is the current word, reversed. -/
def fieldsAux : List Char → List Char → List (List Char)
  | [], cur => if cur.isEmpty then [] else [cur.reverse]
  | c :: rest, cur =>
    if goIsSpace c then
      if cur.isEmpty then fieldsAux rest []
      else cur.reverse :: fieldsAux rest []
    else fieldsAux rest (c :: cur)

/-- Go `strings.Fields`: split around runs of whitespace, dropping empties. -/
def goFields (s : String) : List String :=
  (fieldsAux s.data []).map (fun cs => String.mk cs)

/-- Split a character list at every occurrence of `sep` (pieces may be empty). -/
def splitOnChar (sep : Char) : List Char → List (List Char)
  | [] => [[]]
  | c :: rest =>
    if c = sep then [] :: splitOnChar sep rest
    else
      match splitOnChar sep rest with
      | [] => [[c]]
      | w :: ws => (c :: w) :: ws

/-- Go `strings.Split(s, sep)` for a one-character separator. -/
def goSplitOn (s : String) (sep : Char) : List String :=
  (splitOnChar sep s.data).map (fun cs => String.mk cs)

/-- Go `strings.Split(out, "\n")` as used throughout `gonvme_tcp.go`. -/
def goLines (s : String) : List String :=
  goSplitOn s '\n'

/-- Go `strings.Join(elems, sep)`. -/
def goJoin (elems : List String) (sep : String) : String :=
  match elems with
  | [] => ""
  | a :: as => as.foldl (fun acc x => acc ++ sep ++ x) a

/-- `strStarts sub hay = true` iff `sub` is an initial segment of `hay`. -/
def strStarts : List Char → List Char → Bool
  | [], _ => true
  | _ :: _, [] => false
  | a :: as, b :: bs => a = b && strStarts as bs

/-- Substring search on character lists. -/
def strContains (hay sub : List Char) : Bool :=
  match hay with
  | [] => sub.isEmpty
  | _ :: rest => strStarts sub hay || strContains rest sub

/-- Go `strings.Contains(s, sub)`. -/
def goContainsStr (s sub : String) : Bool :=
  strContains s.data sub.data

/-! ## Data model -/

/-- `NVMeTarget` record from the gonvme data model (field set as used by
`gonvme_tcp.go` and the test file). -/
structure NVMeTarget where
  Portal : String := ""
  TargetNqn : String := ""
  TrType : String := ""
  AdrFam : String := ""
  SubType : String := ""
  Treq : String := ""
  PortID : String := ""
  TrsvcID : String := ""
  SecType : String := ""
  TargetType : String := ""
  HostAdr : String := ""
deriving Repr, DecidableEq

/-- Modelled from the spec: the constant `NVMeTransportTypeTCP` referenced by
`discoverNVMeTCPTargets` is declared outside the provided sources; per §3 and
the discovery-log sample, the TCP transport family string is `"tcp"`. -/
def NVMeTransportTypeTCP : String := "tcp"

/-- Outcome of `cmd.Output()` as seen by the Go code: `none` is a nil error,
`exitError s` is an `*exec.ExitError` whose `Sys()` carries exit status `s`,
`exitErrorNoWaitStatus` is an `*exec.ExitError` without a `syscall.WaitStatus`,
and `otherError` is any non-`ExitError` failure. -/
inductive GoError where
  | exitError (status : Int)
  | exitErrorNoWaitStatus
  | otherError (msg : String)
deriving Repr, DecidableEq

/-! ## Discovery parser (`discoverNVMeTCPTargets`, gonvme_tcp.go lines 64-181) -/

/-- Loop state of the parse loop in `discoverNVMeTCPTargets`. -/
structure DiscoverState where
  targets : List NVMeTarget
  nvmeTarget : NVMeTarget
  entryCount : Nat
  skipIteration : Bool
deriving Repr, DecidableEq

/-- Initial loop state (`targets := []`, `nvmeTarget := NVMeTarget{}`,
`entryCount := 0`, `skipIteration := false`). -/
def initState : DiscoverState :=
  { targets := [], nvmeTarget := {}, entryCount := 0, skipIteration := false }

/-- The `switch key` body of the discovery parse loop. -/
def procKV (st : DiscoverState) (key value : String) : DiscoverState :=
  if key = "=====Discovery" then
    { targets :=
        if st.entryCount ≠ 0 ∧ st.skipIteration = false then st.targets ++ [st.nvmeTarget]
        else st.targets,
      nvmeTarget := {},
      entryCount := st.entryCount + 1,
      skipIteration := false }
  else if key = "trtype:" then
    { st with
      nvmeTarget := { st.nvmeTarget with TargetType := value },
      skipIteration := if value ≠ NVMeTransportTypeTCP then true else st.skipIteration }
  else if key = "traddr:" then
    { st with nvmeTarget := { st.nvmeTarget with Portal := value } }
  else if key = "subnqn:" then
    { st with nvmeTarget := { st.nvmeTarget with TargetNqn := value } }
  else if key = "adrfam:" then
    { st with nvmeTarget := { st.nvmeTarget with AdrFam := value } }
  else if key = "subtype:" then
    { st with nvmeTarget := { st.nvmeTarget with SubType := value } }
  else if key = "treq:" then
    { st with nvmeTarget := { st.nvmeTarget with Treq := value } }
  else if key = "portid:" then
    { st with nvmeTarget := { st.nvmeTarget with PortID := value } }
  else if key = "trsvcid:" then
    { st with nvmeTarget := { st.nvmeTarget with TrsvcID := value } }
  else if key = "sectype:" then
    { st with nvmeTarget := { st.nvmeTarget with SecType := value } }
  else st

/-- Tokenized dispatch: lines with fewer than two fields are skipped
(`if len(tokens) < 2 { continue }`); otherwise `key := tokens[0]`,
`value := strings.Join(tokens[1:], " ")`. -/
def lineDispatch (st : DiscoverState) : List String → DiscoverState
  | key :: v :: vs => procKV st key (goJoin (v :: vs) " ")
  | _ => st

/-- One iteration of the discovery parse loop. -/
def processLine (st : DiscoverState) (line : String) : DiscoverState :=
  lineDispatch st (goFields line)

/-- State after the `for _, line := range strings.Split(string(out), "\n")` loop. -/
def parseLines (lines : List String) : DiscoverState :=
  lines.foldl processLine initState

/-- The flush after the loop:
`if !skipIteration && nvmeTarget.TargetNqn != "" { targets = append(targets, nvmeTarget) }`. -/
def finalize (st : DiscoverState) : List NVMeTarget :=
  if st.skipIteration = false ∧ st.nvmeTarget.TargetNqn ≠ "" then st.targets ++ [st.nvmeTarget]
  else st.targets

/-- The parsing part of `discoverNVMeTCPTargets`, applied to the captured
stdout of the discovery command. -/
def discoverNVMeTCPTargets (out : String) : List NVMeTarget :=
  finalize (parseLines (goLines out))

/-- Result of `cmd.Output()` for the discovery invocation. -/
inductive CmdOutcome where
  | ok (out : String)
  | fail (e : GoError)
deriving Repr, DecidableEq

/-- Full `discoverNVMeTCPTargets`: a failing command returns
`([]NVMeTarget{}, err)`; a succeeding one parses stdout and returns `nil` error. -/
def discoverNVMeTCPTargetsFull (r : CmdOutcome) : List NVMeTarget × Option GoError :=
  match r with
  | CmdOutcome.fail e => ([], some e)
  | CmdOutcome.ok out => (discoverNVMeTCPTargets out, none)

/-! ## Connect / disconnect (`nvmeConnect`, `nvmeDisonnect`) -/

/-- `nvmeConnect` error handling, as a function of the `cmd.Output()` error:
an `ExitError` with exit status 114 ("session already exists") is converted
to a nil error; every other failure is returned to the caller unchanged. -/
def nvmeConnect (cmdErr : Option GoError) : Option GoError :=
  match cmdErr with
  | none => none
  | some e =>
    match e with
    | GoError.exitError status =>
      if status = 114 then none else some e
    | GoError.exitErrorNoWaitStatus =>
      -- nvmeConnectResult stays -1, which is never 114
      some e
    | GoError.otherError _ => some e

/-- `nvmeDisonnect` error handling: the `cmd.Output()` error is returned
verbatim (`return err`), with no exit-code inspection. -/
def nvmeDisonnect (cmdErr : Option GoError) : Option GoError :=
  cmdErr

/-! ## getInitiators (gonvme_tcp.go lines 188-238) -/

/-- Filesystem collaborator for `getInitiators`: `statOk f` is whether
`os.Stat(f)` succeeds, `catOut f` is the stdout of `cat f`. -/
structure GoFS where
  statOk : String → Bool
  catOut : String → String

/-- Default initiator-name file (`/etc/nvme/hostnqn`). -/
def DefaultInitiatorNameFile : String := "/etc/nvme/hostnqn"

/-- The `initiatorConfig` slice built at the top of `getInitiators`. -/
def getInitiatorsFiles (chrootDir fileName : String) : List String :=
  if fileName = "" then
    if chrootDir ≠ "/" then [chrootDir ++ "/" ++ DefaultInitiatorNameFile]
    else [DefaultInitiatorNameFile]
  else [fileName]

/-- The `for _, init := range initiatorConfig` loop.  The boolean tracks the
outer `err` variable, which is only ever assigned by `os.Stat` (the `cat`
error is shadowed inside the loop body): `true` means the last stat failed. -/
def getInitiatorsLoop (fs : GoFS) : List String → List String → Bool → List String × Bool
  | [], nqns, errFlag => (nqns, errFlag)
  | f :: rest, nqns, _ =>
    if fs.statOk f = false then getInitiatorsLoop fs rest nqns true
    else
      getInitiatorsLoop fs rest (nqns ++ (goLines (fs.catOut f)).filter (fun l => l ≠ "")) false

/-- `getInitiators`: returns the collected NQN lines; the error is non-nil
exactly when the list is empty and the last stat failed
(`if len(nqns) == 0 { return nqns, err }; return nqns, nil`). -/
def getInitiators (fs : GoFS) (chrootDir fileName : String) : List String × Bool :=
  if (getInitiatorsLoop fs (getInitiatorsFiles chrootDir fileName) [] false).1.length = 0 then
    getInitiatorsLoop fs (getInitiatorsFiles chrootDir fileName) [] false
  else ((getInitiatorsLoop fs (getInitiatorsFiles chrootDir fileName) [] false).1, false)

/-! ## Well-formed discovery logs

An abstract discovery-log entry and the shape of its rendering, used to
state the parser theorems for well-formed input (§4.1, §8 of the spec). -/

/-- One abstract discovery-log entry (the nine keyed fields of a log block). -/
structure LogEntry where
  trtype : String
  adrfam : String
  subType : String
  treq : String
  portid : String
  trsvcid : String
  subnqn : String
  traddr : String
  sectype : String
deriving Repr, DecidableEq

/-- The Target the parser builds from a complete entry block. -/
def targetOfEntry (e : LogEntry) : NVMeTarget :=
  { TargetType := e.trtype, AdrFam := e.adrfam, SubType := e.subType, Treq := e.treq,
    PortID := e.portid, TrsvcID := e.trsvcid, TargetNqn := e.subnqn, Portal := e.traddr,
    SecType := e.sectype }

/-- `kvLine k v line`: `line` tokenizes to key `k` followed by a nonempty tail
that joins back to `v` (so the parser stores exactly `v` for key `k`). -/
def kvLine (k v line : String) : Prop :=
  ∃ toks, goFields line = k :: toks ∧ toks ≠ [] ∧ goJoin toks " " = v

/-- `headerLine line`: the line's first field is the entry-header literal and
there is at least one further field. -/
def headerLine (line : String) : Prop :=
  ∃ toks, goFields line = "=====Discovery" :: toks ∧ toks ≠ []

/-- A complete rendered entry block: header line followed by the nine keyed
field lines in discovery-log order. -/
def entryBlock (e : LogEntry) (ls : List String) : Prop :=
  ∃ h0 l1 l2 l3 l4 l5 l6 l7 l8 l9,
    ls = [h0, l1, l2, l3, l4, l5, l6, l7, l8, l9] ∧
    headerLine h0 ∧
    kvLine "trtype:" e.trtype l1 ∧
    kvLine "adrfam:" e.adrfam l2 ∧
    kvLine "subtype:" e.subType l3 ∧
    kvLine "treq:" e.treq l4 ∧
    kvLine "portid:" e.portid l5 ∧
    kvLine "trsvcid:" e.trsvcid l6 ∧
    kvLine "subnqn:" e.subnqn l7 ∧
    kvLine "traddr:" e.traddr l8 ∧
    kvLine "sectype:" e.sectype l9

/-- A line the parse loop ignores (leaves the loop state untouched). -/
def neutralLine (line : String) : Prop :=
  ∀ st : DiscoverState, processLine st line = st

/-- A well-formed discovery log: entry blocks in order, with ignorable lines
(banner, blanks) interleaved between them. -/
inductive EntryBlocks : List LogEntry → List String → Prop where
  | nil : EntryBlocks [] []
  | neutral {es : List LogEntry} {ls : List String} (l : String) :
      neutralLine l → EntryBlocks es ls → EntryBlocks es (l :: ls)
  | block {e : LogEntry} {es : List LogEntry} {ls rest : List String} :
      entryBlock e ls → EntryBlocks es rest → EntryBlocks (e :: es) (ls ++ rest)

/-- State of the parse loop after one complete entry block: the previous entry
is flushed under the header rule, and the in-progress target is exactly the
block's entry, skipped iff its transport is not tcp. -/
def blockStep (st : DiscoverState) (e : LogEntry) : DiscoverState :=
  { targets :=
      if st.entryCount ≠ 0 ∧ st.skipIteration = false then st.targets ++ [st.nvmeTarget]
      else st.targets,
    nvmeTarget := targetOfEntry e,
    entryCount := st.entryCount + 1,
    skipIteration := if e.trtype ≠ NVMeTransportTypeTCP then true else false }

/-- The keys recognized by the parse loop's switch. -/
def keyList : List String :=
  ["=====Discovery", "trtype:", "traddr:", "subnqn:", "adrfam:", "subtype:",
   "treq:", "portid:", "trsvcid:", "sectype:"]

/-- Decidable check that a line is ignored by the parse loop: fewer than two
fields, or an unrecognized key. -/
def neutralB (line : String) : Bool :=
  match goFields line with
  | key :: _ :: _ => !(decide (key ∈ keyList))
  | _ => true

/-! ## Session parser (model)

Modelled from the spec: the `sessionParser` implementation and its test
fixtures are not among the provided sources (only the test
`TestSessionParserParse`).  Per §4.2/§6, raw session-listing data is a
sequence of per-session records, each yielding target NQN, portal, session
state and transport name; records are returned in listing order, and
malformed input yields an empty sequence. -/

/-- Modelled from the spec: session state `live`. -/
def NVMESessionStateLive : String := "live"

/-- Modelled from the spec: session state `deleting`. -/
def NVMESessionStateDeleting : String := "deleting"

/-- Modelled from the spec: transport name `tcp`. -/
def NVMETransportNameTCP : String := "tcp"

/-- One active or transitioning fabric connection (§3 Session). -/
structure NVMeSession where
  Target : String := ""
  Portal : String := ""
  NVMESessionState : String := ""
  NVMETransportName : String := ""
deriving Repr, DecidableEq

/-- Modelled from the spec: one session-listing record, rendered as a line of
four comma-separated nonempty fields `target,portal,state,transport`; any
other shape is malformed and yields no record. -/
def sessionRecordOfLine (line : String) : Option NVMeSession :=
  match goSplitOn line ',' with
  | [t, p, s, tr] =>
    if t ≠ "" ∧ p ≠ "" ∧ s ≠ "" ∧ tr ≠ "" then
      some { Target := t, Portal := p, NVMESessionState := s, NVMETransportName := tr }
    else none
  | _ => none

/-- Modelled from the spec: `sessionParser.Parse` — ordered records of the
well-formed lines; malformed lines contribute nothing, so fully malformed
input yields the empty sequence (and no error). -/
def sessionParserParse (data : String) : List NVMeSession :=
  (goLines data).filterMap sessionRecordOfLine

/-- Modelled from the spec: the two-entry reference fixture of
`TestSessionParserParse` (same target, two portals, states live/deleting,
transport tcp). -/
def sessionInfoValid : String :=
  goJoin
    ["nqn.1988-11.com.dell.mock:00:e6e2d5b871f1403E169D,10.230.1.1:4420,live,tcp",
     "nqn.1988-11.com.dell.mock:00:e6e2d5b871f1403E169D,10.230.1.2:4420,deleting,tcp"]
    "\n"

/-- Modelled from the spec: a malformed session-listing fixture. -/
def sessionInfoInvalid : String :=
  "not a session listing at all"

/-! ## Mock discovery (model)

Modelled from the spec: the mock implementation is not among the provided
sources (only its tests).  Per §4.5, each mock method first checks the named
fault-injection switch — if set it returns an empty result and an error whose
message contains the literal token "induced" — and otherwise synthesizes
exactly N records deterministically from the configured cardinality. -/

/-- Mock configuration: synthesis cardinalities plus the discovery
fault-injection switch. -/
structure MockConfig where
  numberOfTCPTargets : Nat
  numberOfFCTargets : Nat
  induceDiscoveryError : Bool
deriving Repr, DecidableEq

/-- Modelled from the spec: the induced-discovery-failure message (contains
the literal token "induced"). -/
def mockInducedError : String := "induced DiscoveryError"

/-- Modelled from the spec: deterministic synthetic TCP target number `i`. -/
def mockTCPTarget (i : Nat) : NVMeTarget :=
  { TargetNqn := "nqn.1988-11.com.dell.mock:00:" ++ toString i,
    Portal := "1.1.1." ++ toString i ++ ":4420",
    TrType := NVMeTransportTypeTCP, TargetType := NVMeTransportTypeTCP,
    AdrFam := "ipv4", SubType := "nvme subsystem", Treq := "not specified",
    PortID := toString i, TrsvcID := "none", SecType := "none" }

/-- Modelled from the spec: deterministic synthetic FC target number `i`. -/
def mockFCTarget (i : Nat) : NVMeTarget :=
  { TargetNqn := "nqn.1988-11.com.dell.mock:00:" ++ toString i,
    Portal := "nn-0x11aaa111111a1a1a:pn-0x11aaa111111a1a1a",
    TrType := "fc", TargetType := "fc",
    AdrFam := "fibre-channel", SubType := "nvme subsystem", Treq := "not specified",
    PortID := toString i, TrsvcID := "none", SecType := "none",
    HostAdr := "nn-0x11aaa111111a1a1a:pn-0x11aaa111111a1a1a" }

/-- Modelled from the spec: mock `DiscoverNVMeTCPTargets`. -/
def mockDiscoverNVMeTCPTargets (cfg : MockConfig) : List NVMeTarget × Option String :=
  if cfg.induceDiscoveryError then ([], some mockInducedError)
  else ((List.range cfg.numberOfTCPTargets).map mockTCPTarget, none)

/-- Modelled from the spec: mock `DiscoverNVMeFCTargets`. -/
def mockDiscoverNVMeFCTargets (cfg : MockConfig) : List NVMeTarget × Option String :=
  if cfg.induceDiscoveryError then ([], some mockInducedError)
  else ((List.range cfg.numberOfFCTargets).map mockFCTarget, none)

/-! ## Concrete fixtures -/

/-- The banner line of the sample discovery log. -/
def sampleBanner : String := "Discovery Log Number of Records 2, Generation counter 2"

/-- The fc entry block of the sample discovery log of the comment block of
`discoverNVMeTCPTargets`, in canonical complete-block form. -/
def sampleFCLines : List String :=
  ["=====Discovery Log Entry 0======",
   "trtype:  fc",
   "adrfam:  fibre-channel",
   "subtype: nvme subsystem",
   "treq:    not specified",
   "portid:  0",
   "trsvcid: none",
   "subnqn:  nqn.1111-11.com.dell:powerstore:00:a1a1a1a111a1111a111a",
   "traddr:  nn-0x11aaa111a1111a11:aa-0x11aaa11111111a11",
   "sectype: none"]

/-- The tcp entry block of the sample discovery log. -/
def sampleTCPLines : List String :=
  ["=====Discovery Log Entry 1======",
   "trtype:  tcp",
   "adrfam:  ipv4",
   "subtype: nvme subsystem",
   "treq:    not specified",
   "portid:  2304",
   "trsvcid: 4420",
   "subnqn:  nqn.1111-11.com.dell:powerstore:00:a1a1a1a111a1111a111a",
   "traddr:  1.1.1.1",
   "sectype: none"]

/-- The sample log as one output string. -/
def sampleLog : String := goJoin (sampleBanner :: (sampleFCLines ++ sampleTCPLines)) "\n"

/-- Abstract form of the sample's fc entry. -/
def entryFC : LogEntry :=
  { trtype := "fc", adrfam := "fibre-channel", subType := "nvme subsystem",
    treq := "not specified", portid := "0", trsvcid := "none",
    subnqn := "nqn.1111-11.com.dell:powerstore:00:a1a1a1a111a1111a111a",
    traddr := "nn-0x11aaa111a1111a11:aa-0x11aaa11111111a11", sectype := "none" }

/-- Abstract form of the sample's tcp entry. -/
def entryTCP : LogEntry :=
  { trtype := "tcp", adrfam := "ipv4", subType := "nvme subsystem",
    treq := "not specified", portid := "2304", trsvcid := "4420",
    subnqn := "nqn.1111-11.com.dell:powerstore:00:a1a1a1a111a1111a111a",
    traddr := "1.1.1.1", sectype := "none" }

/-- A truncated discovery log whose only entry has no `traddr:` line. -/
def cexInput : String :=
  goJoin ["=====Discovery Log Entry 0======", "trtype:  tcp", "subnqn:  nqnA"] "\n"

/-- Concrete filesystem for the `getInitiators` witnesses: exactly one file
exists and it contains only empty lines. -/
def fsWitness : GoFS :=
  { statOk := fun f => decide (f = "initiatorname.nvme"), catOut := fun _ => "\n\n" }

/-! ## Parse-loop step lemmas -/

/-- A key/value line is processed exactly by the switch body on `(k, v)`. -/
theorem kvStep {k v line : String} (h : kvLine k v line) (st : DiscoverState) :
    processLine st line = procKV st k v := by
  obtain ⟨toks, hgf, hne, hj⟩ := h
  cases toks with
  | nil => exact absurd rfl hne
  | cons t ts =>
    show lineDispatch st (goFields line) = procKV st k v
    rw [hgf]
    show procKV st k (goJoin (t :: ts) " ") = procKV st k v
    rw [hj]

/-- A header line flushes the previous entry (when one has started and was
not skipped) and resets the in-progress state. -/
theorem headerStepEq {line : String} (h : headerLine line) (st : DiscoverState) :
    processLine st line =
      { targets :=
          if st.entryCount ≠ 0 ∧ st.skipIteration = false then st.targets ++ [st.nvmeTarget]
          else st.targets,
        nvmeTarget := {}, entryCount := st.entryCount + 1, skipIteration := false } := by
  obtain ⟨toks, hgf, hne⟩ := h
  cases toks with
  | nil => exact absurd rfl hne
  | cons t ts =>
    show lineDispatch st (goFields line) = _
    rw [hgf]
    show procKV st "=====Discovery" (goJoin (t :: ts) " ") = _
    simp [procKV]

/-- An unrecognized key leaves the loop state unchanged. -/
theorem procKV_unrecognized (st : DiscoverState) (k v : String) (h : k ∉ keyList) :
    procKV st k v = st := by
  simp only [keyList, List.mem_cons, List.not_mem_nil, or_false, not_or] at h
  obtain ⟨n1, n2, n3, n4, n5, n6, n7, n8, n9, n10⟩ := h
  simp [procKV, n1, n2, n3, n4, n5, n6, n7, n8, n9, n10]

/-- Lines that `neutralB` accepts are ignored by the parse loop. -/
theorem neutralB_neutral {line : String} (h : neutralB line = true) : neutralLine line := by
  intro st
  show lineDispatch st (goFields line) = st
  unfold neutralB at h
  cases hgf : goFields line with
  | nil => rfl
  | cons k rest =>
    cases rest with
    | nil => rfl
    | cons t ts =>
      rw [hgf] at h
      simp only [Bool.not_eq_eq_eq_not, Bool.not_true, decide_eq_false_iff_not] at h
      show procKV st k (goJoin (t :: ts) " ") = st
      exact procKV_unrecognized st k _ h

/-- A run of ignored lines leaves any loop state unchanged. -/
theorem foldl_neutral {ls : List String} (h : ∀ l ∈ ls, neutralLine l) (st : DiscoverState) :
    ls.foldl processLine st = st := by
  induction ls with
  | nil => rfl
  | cons l rest ih =>
    rw [List.foldl_cons, h l (List.mem_cons_self l rest)]
    exact ih (fun x hx => h x (List.mem_cons_of_mem l hx))

/-- One complete entry block takes any loop state to `blockStep`. -/
theorem foldl_block {e : LogEntry} {ls : List String} (hb : entryBlock e ls)
    (st : DiscoverState) :
    ls.foldl processLine st = blockStep st e := by
  obtain ⟨h0, l1, l2, l3, l4, l5, l6, l7, l8, l9, rfl, hh, h1, h2, h3, h4, h5, h6, h7, h8, h9⟩ :=
    hb
  simp only [List.foldl_cons, List.foldl_nil]
  rw [headerStepEq hh, kvStep h1, kvStep h2, kvStep h3, kvStep h4, kvStep h5, kvStep h6,
    kvStep h7, kvStep h8, kvStep h9]
  simp [procKV, blockStep, targetOfEntry]

/-! ## Nonemptiness of parsed fields -/

/-- Every word produced by `fieldsAux` is nonempty. -/
theorem fieldsAux_ne_nil (cs : List Char) :
    ∀ (cur : List Char), ∀ w ∈ fieldsAux cs cur, w ≠ [] := by
  induction cs with
  | nil =>
    intro cur w hw
    unfold fieldsAux at hw
    by_cases hc : cur.isEmpty
    · simp [hc] at hw
    · simp only [hc, Bool.false_eq_true, if_false, List.mem_singleton] at hw
      subst hw
      simp only [ne_eq, List.reverse_eq_nil_iff]
      simpa [List.isEmpty_iff] using hc
  | cons c rest ih =>
    intro cur w hw
    unfold fieldsAux at hw
    by_cases hs : goIsSpace c
    · simp only [hs, if_true] at hw
      by_cases hc : cur.isEmpty
      · simp only [hc, if_true] at hw
        exact ih [] w hw
      · simp only [hc, Bool.false_eq_true, if_false, List.mem_cons] at hw
        rcases hw with rfl | hw
        · simp only [ne_eq, List.reverse_eq_nil_iff]
          simpa [List.isEmpty_iff] using hc
        · exact ih [] w hw
    · simp only [hs, Bool.false_eq_true, if_false] at hw
      exact ih (c :: cur) w hw

/-- Every field returned by `goFields` is a nonempty string. -/
theorem goFields_mem_ne {s f : String} (hf : f ∈ goFields s) : f ≠ "" := by
  unfold goFields at hf
  obtain ⟨w, hw, rfl⟩ := List.mem_map.mp hf
  intro hc
  exact fieldsAux_ne_nil s.data [] w hw (congrArg String.data hc)

/-- `goJoin`'s fold never shrinks the accumulator. -/
theorem goJoin_foldl_length (ts : List String) :
    ∀ a : String, a.length ≤ (ts.foldl (fun acc x => acc ++ " " ++ x) a).length := by
  induction ts with
  | nil => intro a; exact le_refl _
  | cons x ts ih =>
    intro a
    rw [List.foldl_cons]
    refine le_trans ?_ (ih (a ++ " " ++ x))
    simp only [String.length_append]
    omega

/-- The value recorded from a key/value line is nonempty. -/
theorem kv_value_ne {k v line : String} (h : kvLine k v line) : v ≠ "" := by
  obtain ⟨toks, hgf, hne, hj⟩ := h
  cases toks with
  | nil => exact absurd rfl hne
  | cons t ts =>
    have ht : t ≠ "" := goFields_mem_ne (s := line) (by rw [hgf]; simp)
    intro hc
    subst hj
    have h1 : t.length ≤ (goJoin (t :: ts) " ").length := goJoin_foldl_length ts t
    rw [hc] at h1
    have h0 : t.length = 0 := Nat.le_zero.mp h1
    apply ht
    cases t with
    | mk d =>
      cases d with
      | nil => rfl
      | cons a as => simp [String.length] at h0

/-- A complete entry block carries a nonempty subsystem NQN. -/
theorem entryBlock_subnqn {e : LogEntry} {ls : List String} (hb : entryBlock e ls) :
    e.subnqn ≠ "" := by
  obtain ⟨h0, l1, l2, l3, l4, l5, l6, l7, l8, l9, hls, hh, h1, h2, h3, h4, h5, h6, h7, h8, h9⟩ :=
    hb
  exact kv_value_ne h7

/-- A complete entry block carries a nonempty transport address. -/
theorem entryBlock_traddr {e : LogEntry} {ls : List String} (hb : entryBlock e ls) :
    e.traddr ≠ "" := by
  obtain ⟨h0, l1, l2, l3, l4, l5, l6, l7, l8, l9, hls, hh, h1, h2, h3, h4, h5, h6, h7, h8, h9⟩ :=
    hb
  exact kv_value_ne h8

/-- Every entry of a well-formed log has nonempty NQN and transport address. -/
theorem entryBlocks_wf {es : List LogEntry} {ls : List String} (hb : EntryBlocks es ls) :
    ∀ e ∈ es, e.subnqn ≠ "" ∧ e.traddr ≠ "" := by
  induction hb with
  | nil => intro e he; cases he
  | neutral l hn hbs ih => exact ih
  | block hbk hbs ih =>
    intro e' he'
    rcases List.mem_cons.mp he' with rfl | h
    · exact ⟨entryBlock_subnqn hbk, entryBlock_traddr hbk⟩
    · exact ih e' h

/-! ## The discovery parser on well-formed logs -/

/-- From any mid-log state (at least one entry started, in-progress NQN
nonempty), the rest of a well-formed log contributes exactly its tcp entries,
after the current entry is flushed or dropped by its skip mark. -/
theorem discoverAux {es : List LogEntry} {ls : List String} (hb : EntryBlocks es ls) :
    ∀ st : DiscoverState, st.entryCount ≠ 0 → st.nvmeTarget.TargetNqn ≠ "" →
      finalize (ls.foldl processLine st) =
        (if st.skipIteration = false then st.targets ++ [st.nvmeTarget] else st.targets) ++
          (es.filter fun e => decide (e.trtype = NVMeTransportTypeTCP)).map targetOfEntry := by
  induction hb with
  | nil =>
    intro st hc hq
    simp only [List.foldl_nil, List.filter_nil, List.map_nil, List.append_nil]
    unfold finalize
    by_cases hs : st.skipIteration = false
    · rw [if_pos ⟨hs, hq⟩, if_pos hs]
    · rw [if_neg (fun hcon => hs hcon.1), if_neg hs]
  | neutral l hn hbs ih =>
    intro st hc hq
    rw [List.foldl_cons, hn st]
    exact ih st hc hq
  | @block e es' lsb rest hbk hbs ih =>
    intro st hc hq
    rw [List.foldl_append, foldl_block hbk st]
    have hc' : (blockStep st e).entryCount ≠ 0 := by simp [blockStep]
    have hq' : (blockStep st e).nvmeTarget.TargetNqn ≠ "" := by
      simpa [blockStep, targetOfEntry] using entryBlock_subnqn hbk
    rw [ih (blockStep st e) hc' hq']
    by_cases hd : e.trtype = NVMeTransportTypeTCP
    · simp [blockStep, hd, hc, List.filter_cons, List.append_assoc]
    · simp [blockStep, hd, hc, List.filter_cons]

/-- A well-formed log parses to exactly its tcp entries, in order. -/
theorem discoverTop {es : List LogEntry} {ls : List String} (hb : EntryBlocks es ls) :
    finalize (ls.foldl processLine initState) =
      (es.filter fun e => decide (e.trtype = NVMeTransportTypeTCP)).map targetOfEntry := by
  induction hb with
  | nil => decide
  | neutral l hn hbs ih =>
    rw [List.foldl_cons, hn initState]
    exact ih
  | @block e es' lsb rest hbk hbs ih =>
    rw [List.foldl_append, foldl_block hbk initState]
    have hq' : (blockStep initState e).nvmeTarget.TargetNqn ≠ "" := by
      simpa [blockStep, targetOfEntry] using entryBlock_subnqn hbk
    rw [discoverAux hbs (blockStep initState e) (by simp [blockStep]) hq']
    by_cases hd : e.trtype = NVMeTransportTypeTCP
    · simp [blockStep, initState, hd, List.filter_cons]
    · simp [blockStep, initState, hd, List.filter_cons]

/-- `discoverNVMeTCPTargets` on a well-formed log returns the tcp entries. -/
theorem discoverBlocksEq {out : String} {es : List LogEntry}
    (hb : EntryBlocks es (goLines out)) :
    discoverNVMeTCPTargets out =
      (es.filter fun e => decide (e.trtype = NVMeTransportTypeTCP)).map targetOfEntry :=
  discoverTop hb

/-! ## The sample log is well-formed -/

/-- The banner line is ignored by the parse loop. -/
theorem bannerNeutral : neutralLine sampleBanner :=
  neutralB_neutral (by decide)

/-- The sample's fc block is a complete entry block for `entryFC`. -/
theorem sampleFCBlock : entryBlock entryFC sampleFCLines :=
  ⟨"=====Discovery Log Entry 0======",
   "trtype:  fc",
   "adrfam:  fibre-channel",
   "subtype: nvme subsystem",
   "treq:    not specified",
   "portid:  0",
   "trsvcid: none",
   "subnqn:  nqn.1111-11.com.dell:powerstore:00:a1a1a1a111a1111a111a",
   "traddr:  nn-0x11aaa111a1111a11:aa-0x11aaa11111111a11",
   "sectype: none",
   rfl,
   ⟨["Log", "Entry", "0======"], by decide, by decide⟩,
   ⟨["fc"], by decide, by decide, by decide⟩,
   ⟨["fibre-channel"], by decide, by decide, by decide⟩,
   ⟨["nvme", "subsystem"], by decide, by decide, by decide⟩,
   ⟨["not", "specified"], by decide, by decide, by decide⟩,
   ⟨["0"], by decide, by decide, by decide⟩,
   ⟨["none"], by decide, by decide, by decide⟩,
   ⟨["nqn.1111-11.com.dell:powerstore:00:a1a1a1a111a1111a111a"], by decide, by decide, by decide⟩,
   ⟨["nn-0x11aaa111a1111a11:aa-0x11aaa11111111a11"], by decide, by decide, by decide⟩,
   ⟨["none"], by decide, by decide, by decide⟩⟩

/-- The sample's tcp block is a complete entry block for `entryTCP`. -/
theorem sampleTCPBlock : entryBlock entryTCP sampleTCPLines :=
  ⟨"=====Discovery Log Entry 1======",
   "trtype:  tcp",
   "adrfam:  ipv4",
   "subtype: nvme subsystem",
   "treq:    not specified",
   "portid:  2304",
   "trsvcid: 4420",
   "subnqn:  nqn.1111-11.com.dell:powerstore:00:a1a1a1a111a1111a111a",
   "traddr:  1.1.1.1",
   "sectype: none",
   rfl,
   ⟨["Log", "Entry", "1======"], by decide, by decide⟩,
   ⟨["tcp"], by decide, by decide, by decide⟩,
   ⟨["ipv4"], by decide, by decide, by decide⟩,
   ⟨["nvme", "subsystem"], by decide, by decide, by decide⟩,
   ⟨["not", "specified"], by decide, by decide, by decide⟩,
   ⟨["2304"], by decide, by decide, by decide⟩,
   ⟨["4420"], by decide, by decide, by decide⟩,
   ⟨["nqn.1111-11.com.dell:powerstore:00:a1a1a1a111a1111a111a"], by decide, by decide, by decide⟩,
   ⟨["1.1.1.1"], by decide, by decide, by decide⟩,
   ⟨["none"], by decide, by decide, by decide⟩⟩

/-- The sample log is the well-formed rendering of `[entryFC, entryTCP]`. -/
theorem sampleBlocks : EntryBlocks [entryFC, entryTCP] (goLines sampleLog) := by
  have h : goLines sampleLog = sampleBanner :: (sampleFCLines ++ (sampleTCPLines ++ [])) := by
    decide
  rw [h]
  exact EntryBlocks.neutral _ bannerNeutral
    (EntryBlocks.block sampleFCBlock (EntryBlocks.block sampleTCPBlock EntryBlocks.nil))

/-! ## getInitiators loop lemma -/

/-- Every string the `getInitiators` loop accumulates is nonempty (new
entries come from filtering out empty lines). -/
theorem getInitiatorsLoop_mem (fs : GoFS) :
    ∀ (files nqns : List String) (b : Bool),
      (∀ s ∈ nqns, s ≠ "") → ∀ s ∈ (getInitiatorsLoop fs files nqns b).1, s ≠ "" := by
  intro files
  induction files with
  | nil => intro nqns b h s hs; exact h s hs
  | cons f rest ih =>
    intro nqns b h s hs
    unfold getInitiatorsLoop at hs
    by_cases hst : fs.statOk f = false
    · rw [if_pos hst] at hs
      exact ih _ _ h s hs
    · rw [if_neg hst] at hs
      refine ih _ _ ?_ s hs
      intro x hx
      rcases List.mem_append.mp hx with h1 | h2
      · exact h x h1
      · simpa using List.of_mem_filter h2

/-! ## Claims -/

/-- C1: a connect invocation that fails with exit status 114 (the tool's
"connection already exists" code) yields a nil error from `NVMeConnect`;
any other non-zero exit status yields a non-nil error carrying the
underlying error. -/
theorem connectExitCode114 (s : Int) (hs : s ≠ 114) (_hz : s ≠ 0) :
    nvmeConnect (some (GoError.exitError 114)) = none ∧
    nvmeConnect (some (GoError.exitError s)) = some (GoError.exitError s) := by
  refine ⟨by decide, ?_⟩
  show (if s = 114 then none else some (GoError.exitError s)) = some (GoError.exitError s)
  rw [if_neg hs]

/-- Witness for C1 at exit statuses 114 and 1. -/
theorem connectExitCode114Witness :
    nvmeConnect (some (GoError.exitError 114)) = none ∧
    nvmeConnect (some (GoError.exitError 1)) = some (GoError.exitError 1) :=
  connectExitCode114 1 (by decide) (by decide)

/-- C2: on a well-formed discovery log, entries whose trtype is not tcp are
skipped and excluded, tcp entries are retained in order; with K tcp entries
among the input, exactly K targets are returned. -/
theorem discoverFiltersTransport (out : String) (es : List LogEntry)
    (hb : EntryBlocks es (goLines out)) :
    discoverNVMeTCPTargets out =
      (es.filter fun e => decide (e.trtype = NVMeTransportTypeTCP)).map targetOfEntry ∧
    (discoverNVMeTCPTargets out).length =
      es.countP (fun e => decide (e.trtype = NVMeTransportTypeTCP)) := by
  have h := discoverBlocksEq hb
  refine ⟨h, ?_⟩
  rw [h, List.length_map, List.countP_eq_length_filter]

/-- Witness for C2 on the sample log (one fc entry, one tcp entry). -/
theorem discoverFiltersTransportWitness :
    discoverNVMeTCPTargets sampleLog =
      (([entryFC, entryTCP].filter fun e =>
        decide (e.trtype = NVMeTransportTypeTCP)).map targetOfEntry) ∧
    (discoverNVMeTCPTargets sampleLog).length =
      [entryFC, entryTCP].countP (fun e => decide (e.trtype = NVMeTransportTypeTCP)) :=
  discoverFiltersTransport sampleLog [entryFC, entryTCP] sampleBlocks

/-- C3: at end of input, the final in-progress target is appended exactly when
it was not marked skip and its subsystem NQN is nonempty; in particular an
empty in-progress record is never appended. -/
theorem discoverFinalFlush (out : String) :
    (discoverNVMeTCPTargets out =
      (parseLines (goLines out)).targets ++
        (if (parseLines (goLines out)).skipIteration = false ∧
            (parseLines (goLines out)).nvmeTarget.TargetNqn ≠ ""
         then [(parseLines (goLines out)).nvmeTarget] else [])) ∧
    ((parseLines (goLines out)).nvmeTarget = {} →
      discoverNVMeTCPTargets out = (parseLines (goLines out)).targets) := by
  constructor
  · show finalize _ = _
    unfold finalize
    split
    · rfl
    · rw [List.append_nil]
  · intro h
    show finalize _ = _
    unfold finalize
    rw [h]
    simp

/-- Witness for C3: empty input parses with an empty in-progress record and
the flush appends nothing. -/
theorem discoverFinalFlushWitness :
    discoverNVMeTCPTargets "" = (parseLines (goLines "")).targets :=
  (discoverFinalFlush "").2 (by decide)

/-- C4 counterexample: a truncated log whose single entry lacks a `traddr:`
line makes the parser return one target with an empty portal, so not every
returned Target has nonempty NQN and portal on arbitrary input. -/
theorem discoverPartialSurfaced :
    (discoverNVMeTCPTargets cexInput).length = 1 ∧
    (discoverNVMeTCPTargets cexInput).all
      (fun t => decide (t.TargetNqn ≠ "") && decide (t.Portal ≠ "")) = false := by
  decide

/-- C4 (amended): on well-formed discovery input every returned Target has a
nonempty target NQN and a nonempty portal. -/
theorem discoverWellFormedTargets (out : String) (es : List LogEntry)
    (hb : EntryBlocks es (goLines out)) :
    (discoverNVMeTCPTargets out).all
      (fun t => decide (t.TargetNqn ≠ "") && decide (t.Portal ≠ "")) = true := by
  rw [discoverBlocksEq hb, List.all_eq_true]
  intro t ht
  obtain ⟨e, he, rfl⟩ := List.mem_map.mp ht
  have hw := entryBlocks_wf hb e (List.mem_of_mem_filter he)
  simp [targetOfEntry, hw.1, hw.2]

/-- Witness for amended C4 on the sample log. -/
theorem discoverWellFormedTargetsWitness :
    (discoverNVMeTCPTargets sampleLog).all
      (fun t => decide (t.TargetNqn ≠ "") && decide (t.Portal ≠ "")) = true :=
  discoverWellFormedTargets sampleLog [entryFC, entryTCP] sampleBlocks

/-- C5: when the discovery command succeeds, input consisting only of ignored
lines (empty, blank, banner/header-only, or otherwise unparseable lines)
yields an empty target list and a nil error. -/
theorem discoverNeutralInput (out : String)
    (h : (goLines out).all neutralB = true) :
    discoverNVMeTCPTargetsFull (CmdOutcome.ok out) = ([], none) := by
  have hn : ∀ l ∈ goLines out, neutralLine l := fun l hl =>
    neutralB_neutral (List.all_eq_true.mp h l hl)
  show (discoverNVMeTCPTargets out, none) = ([], none)
  unfold discoverNVMeTCPTargets parseLines
  rw [foldl_neutral hn initState]
  rfl

/-- Witness for C5 on empty input and on a banner-only log. -/
theorem discoverNeutralInputWitness :
    discoverNVMeTCPTargetsFull (CmdOutcome.ok "") = ([], none) ∧
    discoverNVMeTCPTargetsFull
      (CmdOutcome.ok "Discovery Log Number of Records 0, Generation counter 2") =
      ([], none) :=
  ⟨discoverNeutralInput "" (by decide), discoverNeutralInput _ (by decide)⟩

/-- C6: the session parser maps fully-malformed input to the empty sequence
(no error), and parses the two-entry reference fixture to the exact records
(same target NQN; portals 10.230.1.1:4420 and 10.230.1.2:4420; states live
and deleting; transport tcp) in listing order. -/
theorem sessionParserFixture (data : String)
    (hm : ∀ l ∈ goLines data, sessionRecordOfLine l = none) :
    sessionParserParse data = [] ∧
    sessionParserParse sessionInfoValid =
      [{ Target := "nqn.1988-11.com.dell.mock:00:e6e2d5b871f1403E169D",
         Portal := "10.230.1.1:4420",
         NVMESessionState := NVMESessionStateLive,
         NVMETransportName := NVMETransportNameTCP },
       { Target := "nqn.1988-11.com.dell.mock:00:e6e2d5b871f1403E169D",
         Portal := "10.230.1.2:4420",
         NVMESessionState := NVMESessionStateDeleting,
         NVMETransportName := NVMETransportNameTCP }] := by
  constructor
  · unfold sessionParserParse
    rw [List.filterMap_eq_nil_iff]
    exact hm
  · decide

/-- Witness for C6 on the malformed fixture. -/
theorem sessionParserFixtureWitness :
    sessionParserParse sessionInfoInvalid = [] ∧
    sessionParserParse sessionInfoValid =
      [{ Target := "nqn.1988-11.com.dell.mock:00:e6e2d5b871f1403E169D",
         Portal := "10.230.1.1:4420",
         NVMESessionState := NVMESessionStateLive,
         NVMETransportName := NVMETransportNameTCP },
       { Target := "nqn.1988-11.com.dell.mock:00:e6e2d5b871f1403E169D",
         Portal := "10.230.1.2:4420",
         NVMESessionState := NVMESessionStateDeleting,
         NVMETransportName := NVMETransportNameTCP }] :=
  sessionParserFixture sessionInfoInvalid (by decide)

/-- C7: with cardinalities n (tcp) and m (fc) and no induced fault, the mock
discovery methods return exactly n (resp. m) synthesized targets and a nil
error; with the discovery fault switch set they return zero targets and an
error whose message contains the literal token "induced". -/
theorem mockDiscoverCardinality (n m : Nat) :
    (mockDiscoverNVMeTCPTargets ⟨n, m, false⟩).1.length = n ∧
    (mockDiscoverNVMeTCPTargets ⟨n, m, false⟩).2 = none ∧
    (mockDiscoverNVMeFCTargets ⟨n, m, false⟩).1.length = m ∧
    (mockDiscoverNVMeFCTargets ⟨n, m, false⟩).2 = none ∧
    mockDiscoverNVMeTCPTargets ⟨n, m, true⟩ = ([], some mockInducedError) ∧
    mockDiscoverNVMeFCTargets ⟨n, m, true⟩ = ([], some mockInducedError) ∧
    goContainsStr mockInducedError "induced" = true := by
  refine ⟨?_, rfl, ?_, rfl, rfl, rfl, by decide⟩
  · simp [mockDiscoverNVMeTCPTargets]
  · simp [mockDiscoverNVMeFCTargets]

/-- C8: `NVMeDisconnect` propagates the underlying invocation error verbatim
(error exactly when the invocation failed), with no exit-code special-casing
— exit status 114 included. -/
theorem disconnectPropagates :
    nvmeDisonnect none = none ∧
    (∀ e : GoError, nvmeDisonnect (some e) = some e) ∧
    nvmeDisonnect (some (GoError.exitError 114)) = some (GoError.exitError 114) :=
  ⟨rfl, fun _ => rfl, rfl⟩

/-- C9: at an entry-boundary line the in-progress target is reset to the
empty record, the skip flag is cleared, the entry counter advances, and the
previous entry is flushed or dropped — so no field parsed for one entry can
leak into a later entry's record. -/
theorem headerResetsState (st : DiscoverState) (line : String) (h : headerLine line) :
    (processLine st line).nvmeTarget = {} ∧
    (processLine st line).skipIteration = false ∧
    (processLine st line).entryCount = st.entryCount + 1 ∧
    (processLine st line).targets =
      (if st.entryCount ≠ 0 ∧ st.skipIteration = false then st.targets ++ [st.nvmeTarget]
       else st.targets) := by
  rw [headerStepEq h]
  exact ⟨rfl, rfl, rfl, rfl⟩

/-- Witness for C9 at a concrete mid-parse state and header line. -/
theorem headerResetsStateWitness :
    (processLine
        { targets := [], nvmeTarget := { TargetNqn := "stale" }, entryCount := 1,
          skipIteration := false }
        "=====Discovery Log Entry 1======").nvmeTarget = {} ∧
    (processLine
        { targets := [], nvmeTarget := { TargetNqn := "stale" }, entryCount := 1,
          skipIteration := false }
        "=====Discovery Log Entry 1======").skipIteration = false ∧
    (processLine
        { targets := [], nvmeTarget := { TargetNqn := "stale" }, entryCount := 1,
          skipIteration := false }
        "=====Discovery Log Entry 1======").entryCount =
      ({ targets := [], nvmeTarget := { TargetNqn := "stale" }, entryCount := 1,
         skipIteration := false } : DiscoverState).entryCount + 1 ∧
    (processLine
        { targets := [], nvmeTarget := { TargetNqn := "stale" }, entryCount := 1,
          skipIteration := false }
        "=====Discovery Log Entry 1======").targets =
      (if ({ targets := [], nvmeTarget := { TargetNqn := "stale" }, entryCount := 1,
             skipIteration := false } : DiscoverState).entryCount ≠ 0 ∧
          ({ targets := [], nvmeTarget := { TargetNqn := "stale" }, entryCount := 1,
             skipIteration := false } : DiscoverState).skipIteration = false
       then ({ targets := [], nvmeTarget := { TargetNqn := "stale" }, entryCount := 1,
               skipIteration := false } : DiscoverState).targets ++
            [({ targets := [], nvmeTarget := { TargetNqn := "stale" }, entryCount := 1,
                skipIteration := false } : DiscoverState).nvmeTarget]
       else ({ targets := [], nvmeTarget := { TargetNqn := "stale" }, entryCount := 1,
               skipIteration := false } : DiscoverState).targets) :=
  headerResetsState _ _ ⟨["Log", "Entry", "1======"], by decide, by decide⟩

/-- C10: with an explicit filename, `GetInitiators` on a nonexistent file
returns an empty list and a non-nil error (the stat failure); on an existing
file with no non-empty lines it returns an empty list and a nil error; and
every returned string is non-empty. -/
theorem getInitiatorsSpec (fs : GoFS) (chrootDir fileName : String) (hf : fileName ≠ "") :
    (fs.statOk fileName = false → getInitiators fs chrootDir fileName = ([], true)) ∧
    (fs.statOk fileName = true →
      (goLines (fs.catOut fileName)).all (fun l => decide (l = "")) = true →
      getInitiators fs chrootDir fileName = ([], false)) ∧
    (∀ s ∈ (getInitiators fs chrootDir fileName).1, s ≠ "") := by
  have hfiles : getInitiatorsFiles chrootDir fileName = [fileName] := by
    unfold getInitiatorsFiles
    rw [if_neg hf]
  refine ⟨?_, ?_, ?_⟩
  · intro hstat
    simp [getInitiators, hfiles, getInitiatorsLoop, hstat]
  · intro hstat hempty
    have hempty2 : ∀ a ∈ goLines (fs.catOut fileName), a = "" := by
      intro a ha
      simpa using List.all_eq_true.mp hempty a ha
    have hfilter : (goLines (fs.catOut fileName)).filter (fun l => decide (l ≠ "")) = [] := by
      rw [List.filter_eq_nil_iff]
      intro a ha
      simpa using hempty2 a ha
    simp [getInitiators, hfiles, getInitiatorsLoop, hstat, hfilter]
    exact hempty2
  · intro s hs
    have hproj : (getInitiators fs chrootDir fileName).1 =
        (getInitiatorsLoop fs (getInitiatorsFiles chrootDir fileName) [] false).1 := by
      unfold getInitiators
      split <;> rfl
    rw [hproj] at hs
    exact getInitiatorsLoop_mem fs (getInitiatorsFiles chrootDir fileName) [] false
      (fun x hx => absurd hx (List.not_mem_nil x)) s hs

/-- Witness for C10: a missing file gives `([], error)`; an existing file of
only empty lines gives `([], nil)`. -/
theorem getInitiatorsSpecWitness :
    getInitiators fsWitness "/" "missing.nvme" = ([], true) ∧
    getInitiators fsWitness "/" "initiatorname.nvme" = ([], false) :=
  ⟨(getInitiatorsSpec fsWitness "/" "missing.nvme" (by decide)).1 (by decide),
   (getInitiatorsSpec fsWitness "/" "initiatorname.nvme" (by decide)).2.1 (by decide) (by decide)⟩

end Gonvme
